import Mathlib

/-!
Shallow embedding of the shadcn-tanstack-form adapter layer.

The repository ships two variants of the same component family:
- `src/components/ui/form.tsx` (namespace `FormTsx` below): the
  `useFormItemContext` hook gates error display on
  `isTouched || submissionAttempts > 0`.
- an unnamed older variant (namespace `Part001` below): the `useFormField`
  hook derives its `error` object from the error list alone.

All components here are pure render-time computations over snapshots of
the external form-state container, so they embed directly as functions
from field/submission state to rendered attribute records.
-/

/-- A JavaScript error descriptor as produced by the validation collaborator:
a plain string, an object with a string `message` field, an object without
one, some other non-null primitive (with its `String(...)` rendering), or
`null` / `undefined`. -/
inductive ErrDesc where
  | str (s : String)
  | objMsg (m : String)
  | objNoMsg
  | other (repr : String)
  | jsNull
  | jsUndefined
deriving DecidableEq

/-- JavaScript `String(x)` applied to an error descriptor. Objects without a
`toString` override render as `[object Object]`. -/
def ErrDesc.stringify : ErrDesc → String
  | .str s => s
  | .objMsg _ => "[object Object]"
  | .objNoMsg => "[object Object]"
  | .other r => r
  | .jsNull => "null"
  | .jsUndefined => "undefined"

/-- Snapshot of `field.state.meta` from the external form-state container. -/
structure FieldMeta where
  errors : List ErrDesc
  isTouched : Bool
  isValid : Bool
  isDirty : Bool
  isValidating : Bool
deriving DecidableEq

/-- Spec-side notion (§3 of the spec):
`shouldShowError = touched OR submissionAttempts > 0`. -/
def shouldShowError (isTouched : Bool) (submissionAttempts : Nat) : Bool :=
  isTouched || decide (0 < submissionAttempts)

/-- Spec-side helper: a descriptor that the form.tsx normalization turns
into a message (a string, an object with a string `message` field, or a
non-null / non-undefined primitive). -/
def normalizesToMessage : ErrDesc → Bool
  | .str _ => true
  | .objMsg _ => true
  | .other _ => true
  | .objNoMsg => false
  | .jsNull => false
  | .jsUndefined => false

/-- Attributes FormLabel places on the rendered label element. -/
structure LabelAttrs where
  dataError : Bool
  htmlFor : String
deriving DecidableEq

/-- Attributes FormControl places on the rendered control element. -/
structure ControlAttrs where
  id : String
  ariaDescribedBy : String
  ariaInvalid : Bool
deriving DecidableEq

/-- A rendered `<p data-slot="form-message">` node (FormMessage returns
`Option RenderedP`: `none` models returning `null`, i.e. no DOM node). -/
structure RenderedP where
  id : String
  body : String
deriving DecidableEq

/-- A native submit event's mutable flags. -/
structure SubmitEvent where
  defaultPrevented : Bool
  propagationStopped : Bool
deriving DecidableEq

/-- Result of dispatching a submit event: the event's final flags and how
many times `form.handleSubmit()` was invoked. -/
structure SubmitOutcome where
  event : SubmitEvent
  handleSubmitCalls : Nat
deriving DecidableEq

/-- A submit handler attached to the `<form>` element: either the built-in
handler a variant installs, or an arbitrary caller-supplied one (tagged). -/
inductive SubmitHandler where
  | builtin
  | custom (tag : Nat)
deriving DecidableEq

/-- The built-in handler of form.tsx's `Form`:
`e.stopPropagation(); e.preventDefault(); form.handleSubmit()`. -/
def runBuiltinOnSubmit (_e : SubmitEvent) : SubmitOutcome :=
  { event := { defaultPrevented := true, propagationStopped := true }
    handleSubmitCalls := 1 }

/-- Dispatch a native submit event against the handler attached to the
form element. `custom` gives the semantics of caller-supplied handlers
(arbitrary, chosen by the caller); with no handler attached the event is
untouched and `handleSubmit` is never invoked. -/
def dispatchSubmit (custom : Nat → SubmitEvent → SubmitOutcome) :
    Option SubmitHandler → SubmitEvent → SubmitOutcome
  | none, e => { event := e, handleSubmitCalls := 0 }
  | some .builtin, e => runBuiltinOnSubmit e
  | some (.custom k), e => custom k e

namespace FormTsx

/-- The record returned by `useFormItemContext` (form.tsx lines 70-76):
derived ids, the normalized first error message, and the display flag. -/
structure FormItemCtx where
  formControlId : String
  formDescriptionId : String
  formMessageId : String
  error : Option String
  hasError : Bool
deriving DecidableEq

/-- `useFormItemContext` (form.tsx lines 52-77), as a function of the id
context, the field's error list and touched flag, and the form's
submission-attempt count.
`showError = isTouched || submissionAttempts > 0`; the first error is
normalized by the `typeof` chain of lines 59-67: strings pass through,
objects contribute their string `message` field if any, `null` and
`undefined` contribute nothing, anything else is `String(...)`-ified. -/
def useFormItemContext (idContext : String) (errors : List ErrDesc)
    (isTouched : Bool) (submissionAttempts : Nat) : FormItemCtx :=
  let showError := isTouched || decide (0 < submissionAttempts)
  let errorMessage : Option String :=
    if showError && !errors.isEmpty then
      match errors with
      | .str s :: _ => some s
      | .objMsg m :: _ => some m
      | .objNoMsg :: _ => none
      | .other r :: _ => some r
      | .jsNull :: _ => none
      | .jsUndefined :: _ => none
      | [] => none
    else none
  { formControlId := idContext ++ "-form-item"
    formDescriptionId := idContext ++ "-form-item-description"
    formMessageId := idContext ++ "-form-item-message"
    error := errorMessage
    hasError := showError && errorMessage.isSome }

/-- `useFormItemContext` with its scope guard (form.tsx lines 41-43): the
`IdContext` default is `null`, and a non-string context value throws. -/
def useFormItemContextChecked (idContext : Option String)
    (errors : List ErrDesc) (isTouched : Bool) (submissionAttempts : Nat) :
    Except String FormItemCtx :=
  match idContext with
  | none => .error "Form Item components should be used within <FormItem>"
  | some idc => .ok (useFormItemContext idc errors isTouched submissionAttempts)

/-- Attributes `FormLabel` derives (form.tsx lines 102-109). -/
def formLabel (ctx : FormItemCtx) : LabelAttrs :=
  { dataError := ctx.hasError
    htmlFor := ctx.formControlId }

/-- Attributes `FormControl` derives (form.tsx lines 113-129). -/
def formControl (ctx : FormItemCtx) : ControlAttrs :=
  { id := ctx.formControlId
    ariaDescribedBy :=
      if ctx.hasError then ctx.formDescriptionId ++ " " ++ ctx.formMessageId
      else ctx.formDescriptionId
    ariaInvalid := ctx.hasError }

/-- Caller-supplied props that can collide with `FormControl`'s derived
attributes; `none` models an absent prop. -/
structure ControlProps where
  id : Option String
  ariaDescribedBy : Option String
  ariaInvalid : Option Bool
deriving DecidableEq

/-- `FormControl` with the trailing `{...props}` spread (form.tsx lines
121-128): a prop present on the caller side wins over the derived value. -/
def formControlRendered (ctx : FormItemCtx) (props : ControlProps) :
    ControlAttrs :=
  let derived := formControl ctx
  { id := props.id.getD derived.id
    ariaDescribedBy := props.ariaDescribedBy.getD derived.ariaDescribedBy
    ariaInvalid := props.ariaInvalid.getD derived.ariaInvalid }

/-- `FormMessage` (form.tsx lines 145-163): `body = error ?? children`;
a falsy body (absent, or the empty string) renders no DOM node. -/
def formMessage (ctx : FormItemCtx) (children : Option String) :
    Option RenderedP :=
  let body : Option String :=
    match ctx.error with
    | some e => some e
    | none => children
  match body with
  | some b => if b = "" then none else some { id := ctx.formMessageId, body := b }
  | none => none

/-- The `onSubmit` effectively attached by form.tsx's `Form` (lines 16-24):
the built-in handler is listed before `{...props}`, so a caller-supplied
`onSubmit` replaces it; otherwise the built-in one is attached. -/
def formOnSubmit (callerOnSubmit : Option SubmitHandler) :
    Option SubmitHandler :=
  match callerOnSubmit with
  | some h => some h
  | none => some .builtin

end FormTsx

namespace Part001

/-- The record returned by `useFormField` (part_001 lines 114-125). The
`error` field models the `{ message }` object by its message string
(`none` models `null`). -/
structure FormFieldResult where
  id : String
  name : String
  formItemId : String
  formDescriptionId : String
  formMessageId : String
  error : Option String
  invalid : Bool
  isDirty : Bool
  isTouched : Bool
  isValidating : Bool
deriving DecidableEq

/-- `useFormField` (part_001 lines 91-126) given the item id and the field
snapshot. The error object is built whenever the error list is non-empty:
its message is the first descriptor's `message` field when that descriptor
is a non-null object carrying one, else `String(errors[0])`. `invalid` is
`!isValid && isTouched`. -/
def useFormField (id : String) (name : String) (meta : FieldMeta) :
    FormFieldResult :=
  let error : Option String :=
    if !meta.errors.isEmpty then
      some (match meta.errors with
        | .objMsg m :: _ => m
        | e :: _ => e.stringify
        | [] => "")
    else none
  { id := id
    name := name
    formItemId := id ++ "-form-item"
    formDescriptionId := id ++ "-form-item-description"
    formMessageId := id ++ "-form-item-message"
    error := error
    invalid := !meta.isValid && meta.isTouched
    isDirty := meta.isDirty
    isTouched := meta.isTouched
    isValidating := meta.isValidating }

/-- `useFormField` with its scope guard (part_001 lines 95-97): the
`FormFieldContext` default carries `field: null`, which throws. The
`FormItemContext` default is `{}`, so a missing item id does not throw:
the template literals render `undefined` into the derived ids. -/
def useFormFieldChecked (field : Option FieldMeta) (name : String)
    (itemId : Option String) : Except String FormFieldResult :=
  match field with
  | none => .error "useFormField should be used within <FormField>"
  | some meta =>
      .ok (useFormField (match itemId with
        | some s => s
        | none => "undefined") name meta)

/-- `FormField`'s scope guard (part_001 lines 74-78): with no enclosing
`Form` the context's `form` is `null` and the render throws; otherwise it
renders the field scope for `name`. -/
def formFieldChecked (form : Option Unit) (name : String) :
    Except String String :=
  match form with
  | none => .error "FormField must be used within a Form component"
  | some _ => .ok name

/-- Attributes `FormLabel` derives (part_001 lines 156-163):
`data-error={!!error}`, `htmlFor={formItemId}`. -/
def formLabel (ff : FormFieldResult) : LabelAttrs :=
  { dataError := ff.error.isSome
    htmlFor := ff.formItemId }

/-- Attributes `FormControl` derives (part_001 lines 170-182). -/
def formControl (ff : FormFieldResult) : ControlAttrs :=
  { id := ff.formItemId
    ariaDescribedBy :=
      if ff.error.isSome then
        ff.formDescriptionId ++ " " ++ ff.formMessageId
      else ff.formDescriptionId
    ariaInvalid := ff.error.isSome }

/-- `FormMessage` (part_001 lines 198-215): a truthy (non-null) error
object yields `body = String(error.message ?? "")`, else the supplied
children; a falsy body renders no DOM node. -/
def formMessage (ff : FormFieldResult) (children : Option String) :
    Option RenderedP :=
  let body : Option String :=
    match ff.error with
    | some m => some m
    | none => children
  match body with
  | some b => if b = "" then none else some { id := ff.formMessageId, body := b }
  | none => none

/-- The `onSubmit` effectively attached by part_001's `Form` (lines 42-51):
the component installs no handler of its own, it only forwards `{...props}`
onto the `<form>` element. -/
def formOnSubmit (callerOnSubmit : Option SubmitHandler) :
    Option SubmitHandler :=
  callerOnSubmit

end Part001

/-! ### Shared characterization lemmas -/

/-- Spec-side helper: whether the first descriptor of the list normalizes
to a message under form.tsx's normalization chain. -/
def firstNormalizes (errors : List ErrDesc) : Bool :=
  match errors with
  | [] => false
  | e :: _ => normalizesToMessage e

theorem formTsx_error_isSome (idc : String) (errors : List ErrDesc)
    (t : Bool) (n : Nat) :
    (FormTsx.useFormItemContext idc errors t n).error.isSome =
      (shouldShowError t n && firstNormalizes errors) := by
  simp only [FormTsx.useFormItemContext, shouldShowError, firstNormalizes]
  cases h : (t || decide (0 < n)) with
  | false => simp
  | true =>
    cases errors with
    | nil => simp
    | cons e rest => cases e <;> simp [normalizesToMessage]

theorem formTsx_hasError_eq (idc : String) (errors : List ErrDesc)
    (t : Bool) (n : Nat) :
    (FormTsx.useFormItemContext idc errors t n).hasError =
      (shouldShowError t n && firstNormalizes errors) := by
  simp only [FormTsx.useFormItemContext, shouldShowError, firstNormalizes]
  cases h : (t || decide (0 < n)) with
  | false => simp
  | true =>
    cases errors with
    | nil => simp
    | cons e rest => cases e <;> simp [normalizesToMessage]

theorem part001_error_isSome (idc name : String) (meta : FieldMeta) :
    (Part001.useFormField idc name meta).error.isSome =
      !meta.errors.isEmpty := by
  simp only [Part001.useFormField]
  cases h : meta.errors.isEmpty <;> simp [h]

/-! ### Claim C1 -/

/-- Claim C1 fails on the code: in the `useFormField` variant the derived
error object is non-null for an untouched field with zero submission
attempts (so `shouldShowError` is false), and in the form.tsx variant a
touched field whose non-empty error list starts with a `null` descriptor
yields a null `displayedMessage` (so the converse direction fails too). -/
theorem c1_counterexample :
    (Part001.useFormField "i" "n"
      { errors := [ErrDesc.str "boom"], isTouched := false, isValid := false,
        isDirty := false, isValidating := false }).error = some "boom" ∧
    shouldShowError false 0 = false ∧
    shouldShowError true 0 = true ∧
    ([ErrDesc.jsNull] : List ErrDesc).isEmpty = false ∧
    (FormTsx.useFormItemContext "i" [ErrDesc.jsNull] true 0).error = none := by
  decide

/-- Claim C1 amended: in the form.tsx variant `displayedMessage` is
non-null iff `shouldShowError` is true and the first error descriptor
normalizes to a message (a string, an object with a string `message`
field, or a non-null/non-undefined primitive); in the `useFormField`
variant the error object is non-null iff the error list is non-empty,
independent of `shouldShowError`. -/
theorem c1_displayed_message_characterization (idc name : String)
    (errors : List ErrDesc) (t : Bool) (n : Nat) (meta : FieldMeta) :
    ((FormTsx.useFormItemContext idc errors t n).error.isSome =
      (shouldShowError t n && firstNormalizes errors)) ∧
    ((Part001.useFormField idc name meta).error.isSome =
      !meta.errors.isEmpty) :=
  ⟨formTsx_error_isSome idc errors t n, part001_error_isSome idc name meta⟩

/-! ### Claim C2 -/

/-- Claim C2 fails on the code: in the `useFormField` variant a `null`
first descriptor produces the message `"null"` (and `undefined` would
produce `"undefined"`), and in the form.tsx variant an object descriptor
without a `message` field is not stringified at all — it produces no
message. -/
theorem c2_counterexample :
    (Part001.useFormField "i" "n"
      { errors := [ErrDesc.jsNull], isTouched := true, isValid := false,
        isDirty := false, isValidating := false }).error = some "null" ∧
    (FormTsx.useFormItemContext "i" [ErrDesc.objNoMsg] true 0).error = none := by
  decide

/-- Claim C2 amended: in the form.tsx variant a first descriptor that is
neither a string nor an object is stringified directly when it is neither
`null` nor `undefined`; an object without a string `message` field, and
`null`/`undefined`, produce no message. In the `useFormField` variant
every first descriptor that is not an object carrying a `message` field is
stringified — including objects without one (`"[object Object]"`), `null`
(`"null"`) and `undefined` (`"undefined"`). -/
theorem c2_normalization_by_shape (idc name : String) (r : String)
    (rest : List ErrDesc) (t v d vg : Bool) :
    (FormTsx.useFormItemContext idc (ErrDesc.other r :: rest) true 0).error = some r ∧
    (FormTsx.useFormItemContext idc (ErrDesc.objNoMsg :: rest) true 0).error = none ∧
    (FormTsx.useFormItemContext idc (ErrDesc.jsNull :: rest) true 0).error = none ∧
    (FormTsx.useFormItemContext idc (ErrDesc.jsUndefined :: rest) true 0).error = none ∧
    (Part001.useFormField idc name
      ⟨ErrDesc.other r :: rest, t, v, d, vg⟩).error = some r ∧
    (Part001.useFormField idc name
      ⟨ErrDesc.objNoMsg :: rest, t, v, d, vg⟩).error = some "[object Object]" ∧
    (Part001.useFormField idc name
      ⟨ErrDesc.jsNull :: rest, t, v, d, vg⟩).error = some "null" ∧
    (Part001.useFormField idc name
      ⟨ErrDesc.jsUndefined :: rest, t, v, d, vg⟩).error = some "undefined" :=
  ⟨rfl, rfl, rfl, rfl, rfl, rfl, rfl, rfl⟩

/-! ### Claim C3 -/

/-- Claim C3 fails on the code: for a touched field with an empty error
list, `shouldShowError` is true, yet form.tsx's FormControl renders
`aria-invalid` as false and `aria-describedby` without the message id,
because the rendered attributes follow `hasError` (which additionally
requires a displayable error message), not `shouldShowError`. -/
theorem c3_counterexample :
    shouldShowError true 0 = true ∧
    (FormTsx.formControl
      (FormTsx.useFormItemContext "i" [] true 0)).ariaInvalid = false ∧
    (FormTsx.formControl
      (FormTsx.useFormItemContext "i" [] true 0)).ariaDescribedBy =
      "i-form-item-description" := by
  decide

/-- Claim C3 amended: FormControl sets the element id to the control id in
both variants; `aria-invalid` and the message-id part of
`aria-describedby` follow the variant's error-display flag — in form.tsx
`shouldShowError && firstNormalizes errors` (not bare `shouldShowError`),
and in the `useFormField` variant mere non-emptiness of the error list. -/
theorem c3_control_attributes (idc name : String) (errors : List ErrDesc)
    (t : Bool) (n : Nat) (meta : FieldMeta) :
    ((FormTsx.formControl (FormTsx.useFormItemContext idc errors t n)).id =
      idc ++ "-form-item") ∧
    ((FormTsx.formControl (FormTsx.useFormItemContext idc errors t n)).ariaInvalid =
      (shouldShowError t n && firstNormalizes errors)) ∧
    ((FormTsx.formControl (FormTsx.useFormItemContext idc errors t n)).ariaDescribedBy =
      if shouldShowError t n && firstNormalizes errors then
        (idc ++ "-form-item-description") ++ " " ++ (idc ++ "-form-item-message")
      else idc ++ "-form-item-description") ∧
    ((Part001.formControl (Part001.useFormField idc name meta)).id =
      idc ++ "-form-item") ∧
    ((Part001.formControl (Part001.useFormField idc name meta)).ariaInvalid =
      !meta.errors.isEmpty) ∧
    ((Part001.formControl (Part001.useFormField idc name meta)).ariaDescribedBy =
      if meta.errors.isEmpty then idc ++ "-form-item-description"
      else (idc ++ "-form-item-description") ++ " " ++ (idc ++ "-form-item-message")) := by
  refine ⟨rfl, ?_, ?_, rfl, ?_, ?_⟩
  · simpa [FormTsx.formControl] using formTsx_hasError_eq idc errors t n
  · simp only [FormTsx.formControl, formTsx_hasError_eq idc errors t n]
    split <;> rfl
  · simpa [Part001.formControl] using part001_error_isSome idc name meta
  · simp only [Part001.formControl, part001_error_isSome idc name meta]
    by_cases h : meta.errors.isEmpty = true <;> simp only [h] <;> rfl

/-! ### Claim C4 -/

/-- Claim C4 fails on the code: the part_001 variant's `Form` installs no
submit handler of its own, so with no caller-supplied `onSubmit` a native
submit event keeps its browser default (nothing prevented or stopped) and
`handleSubmit` is invoked zero times, not exactly once. -/
theorem c4_counterexample :
    Part001.formOnSubmit none = none ∧
    dispatchSubmit (fun _ e => { event := e, handleSubmitCalls := 0 })
      (Part001.formOnSubmit none)
      { defaultPrevented := false, propagationStopped := false } =
      { event := { defaultPrevented := false, propagationStopped := false },
        handleSubmitCalls := 0 } := by
  decide

/-- Claim C4 amended: in the form.tsx variant, when the caller supplies no
`onSubmit` prop, the Form shell attaches its built-in handler, which stops
propagation, prevents the default action, and invokes `handleSubmit`
exactly once per submit event; the part_001 variant's `Form` only forwards
caller props, attaching no handler of its own, so absent a caller-supplied
`onSubmit` the event is untouched and `handleSubmit` is never invoked. -/
theorem c4_form_shell_submit (custom : Nat → SubmitEvent → SubmitOutcome)
    (e : SubmitEvent) :
    FormTsx.formOnSubmit none = some SubmitHandler.builtin ∧
    dispatchSubmit custom (FormTsx.formOnSubmit none) e =
      { event := { defaultPrevented := true, propagationStopped := true },
        handleSubmitCalls := 1 } ∧
    Part001.formOnSubmit none = none ∧
    dispatchSubmit custom (Part001.formOnSubmit none) e =
      { event := e, handleSubmitCalls := 0 } :=
  ⟨rfl, rfl, rfl, rfl⟩

/-! ### Claim C5 -/

/-- Claim C5 fails on the code: with a displayed error whose normalized
message is the empty string (here the field's first error descriptor is
`""` and the field is touched), `displayedMessage` is set (`some ""`), yet
FormMessage renders no DOM node at all — it neither renders the set
message nor falls back to the explicitly supplied children. -/
theorem c5_counterexample :
    (FormTsx.useFormItemContext "i" [ErrDesc.str ""] true 0).error = some "" ∧
    FormTsx.formMessage (FormTsx.useFormItemContext "i" [ErrDesc.str ""] true 0)
      (some "fallback") = none := by
  decide

/-- Claim C5 amended: in both variants FormMessage renders the displayed
message when it is set and non-empty; a set-but-empty message renders no
DOM node and does not fall back to the supplied children; with no message
it renders the supplied fallback children when they are truthy (a
non-empty string), and no DOM node when they are absent or empty. -/
theorem c5_message_rendering (ctx : FormTsx.FormItemCtx)
    (ff : Part001.FormFieldResult) (children : Option String) :
    (∀ m, ¬ m = "" → ctx.error = some m →
      FormTsx.formMessage ctx children =
        some { id := ctx.formMessageId, body := m }) ∧
    (ctx.error = some "" → FormTsx.formMessage ctx children = none) ∧
    (ctx.error = none → ∀ c, ¬ c = "" → children = some c →
      FormTsx.formMessage ctx children =
        some { id := ctx.formMessageId, body := c }) ∧
    (ctx.error = none → children = none ∨ children = some "" →
      FormTsx.formMessage ctx children = none) ∧
    (∀ m, ¬ m = "" → ff.error = some m →
      Part001.formMessage ff children =
        some { id := ff.formMessageId, body := m }) ∧
    (ff.error = some "" → Part001.formMessage ff children = none) ∧
    (ff.error = none → ∀ c, ¬ c = "" → children = some c →
      Part001.formMessage ff children =
        some { id := ff.formMessageId, body := c }) ∧
    (ff.error = none → children = none ∨ children = some "" →
      Part001.formMessage ff children = none) := by
  refine ⟨?_, ?_, ?_, ?_, ?_, ?_, ?_, ?_⟩
  · intro m hm he
    simp [FormTsx.formMessage, he, hm]
  · intro he
    simp [FormTsx.formMessage, he]
  · intro he c hc hch
    simp [FormTsx.formMessage, he, hch, hc]
  · intro he hch
    cases hch with
    | inl h => simp [FormTsx.formMessage, he, h]
    | inr h => simp [FormTsx.formMessage, he, h]
  · intro m hm he
    simp [Part001.formMessage, he, hm]
  · intro he
    simp [Part001.formMessage, he]
  · intro he c hc hch
    simp [Part001.formMessage, he, hch, hc]
  · intro he hch
    cases hch with
    | inl h => simp [Part001.formMessage, he, h]
    | inr h => simp [Part001.formMessage, he, h]

/-- Witness for the amended C5: a concrete touched field whose first error
is `"msg"` renders the message node with the derived message id. -/
theorem c5_witness :
    FormTsx.formMessage (FormTsx.useFormItemContext "i" [ErrDesc.str "msg"] true 0)
      none = some { id := "i-form-item-message", body := "msg" } :=
  (c5_message_rendering (FormTsx.useFormItemContext "i" [ErrDesc.str "msg"] true 0)
      (Part001.useFormField "i" "n"
        { errors := [], isTouched := false, isValid := true,
          isDirty := false, isValidating := false })
      none).1 "msg" (by decide) (by decide)

/-! ### Claim C6 -/

/-- Claim C6 fails on the code in its data-error half: for a touched field
with an empty error list, `shouldShowError` is true, yet form.tsx's
FormLabel renders `data-error` as false, because the attribute follows
`hasError`, not `shouldShowError`. (The htmlFor/id association half of the
claim does hold.) -/
theorem c6_counterexample :
    shouldShowError true 0 = true ∧
    (FormTsx.formLabel
      (FormTsx.useFormItemContext "i" [] true 0)).dataError = false := by
  decide

/-- Claim C6 amended: in both variants FormLabel's `htmlFor` equals the id
FormControl assigns to the control element (both derived from the same row
identifier); `data-error` follows the variant's error-display flag — in
form.tsx `shouldShowError && firstNormalizes errors` (not bare
`shouldShowError`), in the `useFormField` variant non-emptiness of the
error list. -/
theorem c6_label_attributes (idc name : String) (errors : List ErrDesc)
    (t : Bool) (n : Nat) (meta : FieldMeta) :
    ((FormTsx.formLabel (FormTsx.useFormItemContext idc errors t n)).htmlFor =
      (FormTsx.formControl (FormTsx.useFormItemContext idc errors t n)).id) ∧
    ((FormTsx.formLabel (FormTsx.useFormItemContext idc errors t n)).dataError =
      (shouldShowError t n && firstNormalizes errors)) ∧
    ((Part001.formLabel (Part001.useFormField idc name meta)).htmlFor =
      (Part001.formControl (Part001.useFormField idc name meta)).id) ∧
    ((Part001.formLabel (Part001.useFormField idc name meta)).dataError =
      !meta.errors.isEmpty) := by
  refine ⟨rfl, ?_, rfl, ?_⟩
  · simpa [FormTsx.formLabel] using formTsx_hasError_eq idc errors t n
  · simpa [Part001.formLabel] using part001_error_isSome idc name meta

/-! ### Claim C7 -/

/-- Claim C7 confirmed: form.tsx's `useFormItemContext` throws when the id
context is absent (no enclosing FormItem); part_001's `FormField` throws
when the form context is absent (no enclosing Form); part_001's
`useFormField` throws when the field context is absent (no enclosing
FormField). With the required scope present, each returns normally and no
error is thrown. -/
theorem c7_scope_guards (errors : List ErrDesc) (t : Bool) (n : Nat)
    (idc itemId name : String) (meta : FieldMeta) :
    FormTsx.useFormItemContextChecked none errors t n =
      Except.error "Form Item components should be used within <FormItem>" ∧
    FormTsx.useFormItemContextChecked (some idc) errors t n =
      Except.ok (FormTsx.useFormItemContext idc errors t n) ∧
    Part001.formFieldChecked none name =
      Except.error "FormField must be used within a Form component" ∧
    Part001.formFieldChecked (some ()) name = Except.ok name ∧
    Part001.useFormFieldChecked none name (some itemId) =
      Except.error "useFormField should be used within <FormField>" ∧
    Part001.useFormFieldChecked (some meta) name (some itemId) =
      Except.ok (Part001.useFormField itemId name meta) :=
  ⟨rfl, rfl, rfl, rfl, rfl, rfl⟩

/-! ### Claim C8 -/

/-- Claim C8 confirmed: in the `useFormField` variant, `error` is non-null
whenever the error list is non-empty regardless of touch state, while
`invalid` additionally requires `isTouched`; so an untouched field with a
non-empty error list reports a non-null `error` together with
`invalid = false`. -/
theorem c8_error_without_invalid (id name : String) (meta : FieldMeta)
    (h1 : meta.errors.isEmpty = false) :
    (Part001.useFormField id name meta).error.isSome = true ∧
    (meta.isTouched = false →
      (Part001.useFormField id name meta).invalid = false) := by
  constructor
  · simp [part001_error_isSome, h1]
  · intro ht
    simp [Part001.useFormField, ht]

/-- Witness for C8: a concrete untouched, invalid field with one error. -/
theorem c8_witness :
    (Part001.useFormField "i" "n"
      { errors := [ErrDesc.str "required"], isTouched := false,
        isValid := false, isDirty := false,
        isValidating := false }).error.isSome = true ∧
    (Part001.useFormField "i" "n"
      { errors := [ErrDesc.str "required"], isTouched := false,
        isValid := false, isDirty := false,
        isValidating := false }).invalid = false :=
  ⟨(c8_error_without_invalid "i" "n"
      { errors := [ErrDesc.str "required"], isTouched := false,
        isValid := false, isDirty := false, isValidating := false }
      (by decide)).1,
   (c8_error_without_invalid "i" "n"
      { errors := [ErrDesc.str "required"], isTouched := false,
        isValid := false, isDirty := false, isValidating := false }
      (by decide)).2 rfl⟩

/-! ### Claim C9 -/

/-- Claim C9 confirmed: when the first error descriptor normalizes to the
empty string while errors are displayable (touched field in form.tsx; any
flags in the `useFormField` variant), FormMessage renders no DOM node and
does not fall back to the supplied children — in form.tsx because the
empty-string message short-circuits the `??` fallback and then fails the
truthiness check, in part_001 because the truthy error object produces an
empty-string body. -/
theorem c9_empty_message_renders_nothing (idc name : String)
    (rest : List ErrDesc) (children : Option String) (t v d vg : Bool) :
    FormTsx.formMessage
      (FormTsx.useFormItemContext idc (ErrDesc.str "" :: rest) true 0)
      children = none ∧
    FormTsx.formMessage
      (FormTsx.useFormItemContext idc (ErrDesc.objMsg "" :: rest) true 0)
      children = none ∧
    Part001.formMessage
      (Part001.useFormField idc name ⟨ErrDesc.str "" :: rest, t, v, d, vg⟩)
      children = none ∧
    Part001.formMessage
      (Part001.useFormField idc name ⟨ErrDesc.objMsg "" :: rest, t, v, d, vg⟩)
      children = none :=
  ⟨rfl, rfl, rfl, rfl⟩

/-! ### Claim C10 -/

/-- Claim C10 confirmed: derived attributes are listed before the
caller-props spread, so a caller-supplied prop of the same name wins. A
caller-supplied `onSubmit` on form.tsx's Form becomes the attached handler
(the built-in preventDefault/stopPropagation/handleSubmit behavior is
replaced by the caller's handler), and caller-supplied `id`,
`aria-describedby`, `aria-invalid` on FormControl replace the generated
accessibility attributes; with no caller props the derived values stand. -/
theorem c10_props_override (k : Nat) (e : SubmitEvent)
    (custom : Nat → SubmitEvent → SubmitOutcome) (ctx : FormTsx.FormItemCtx)
    (pid pdesc : String) (pinv : Bool) :
    FormTsx.formOnSubmit (some (SubmitHandler.custom k)) =
      some (SubmitHandler.custom k) ∧
    dispatchSubmit custom
      (FormTsx.formOnSubmit (some (SubmitHandler.custom k))) e = custom k e ∧
    FormTsx.formControlRendered ctx
      { id := some pid, ariaDescribedBy := some pdesc,
        ariaInvalid := some pinv } =
      { id := pid, ariaDescribedBy := pdesc, ariaInvalid := pinv } ∧
    FormTsx.formControlRendered ctx
      { id := none, ariaDescribedBy := none, ariaInvalid := none } =
      FormTsx.formControl ctx :=
  ⟨rfl, rfl, rfl, rfl⟩
